import Mathlib

/-!
Verification development for the pyaarlo backend (`pyaarlo/backend.py`).

This file gives a shallow embedding of the session/transport/event engine of
the `ArloBackEnd` class and proves (or refutes) the specified properties of:

* the transaction correlator (`_event_handle_response`, `_start_transaction`,
  `_wait_for_transaction`),
* the event classifier and router (`_event_dispatcher`),
* the callback registry (`add_listener`, `add_any_listener`, `del_listener`),
* the session store (`_load_session`, `_save_session`),
* the request executor's response normalization (`_request_tuple`),
* the credential-submission retry loop of `_auth`,
* the event supervisor's loop-exit cleanup (`_event_main`) and
  `start_monitoring`'s bounded connection wait.

Decoded wire payloads are JSON-shaped values; Python dictionaries are modelled
as association lists looked up and updated at the first occurrence of a key,
which matches Python `dict` semantics because every dictionary built by the
code has unique keys.  Python functions that can raise an uncaught exception
are modelled as `Option`-returning functions where the paths matter.
-/

/-- JVal is a decoded JSON value, the shape of every payload the backend
handles.  Numbers are modelled as integers (no claim involves floats). -/
inductive JVal where
  | null
  | bool (b : Bool)
  | num (n : Int)
  | str (s : String)
  | arr (xs : List JVal)
  | obj (fields : List (String × JVal))

/-- Payload is a decoded top-level JSON object: what `json.loads` hands to
`_event_handle_response` and `_event_dispatcher`. -/
abbrev Payload := List (String × JVal)

/-- alGet models Python `d[k]` / `k in d` on a dict: the value at the first
occurrence of the key, if any. -/
def alGet {α : Type} (m : List (String × α)) (k : String) : Option α :=
  match m with
  | [] => none
  | (k', v) :: rest => if k' = k then some v else alGet rest k

/-- alSet models Python `d[k] = v`: replace the value at the first occurrence
of the key, or append a new entry. -/
def alSet {α : Type} (m : List (String × α)) (k : String) (v : α) :
    List (String × α) :=
  match m with
  | [] => [(k, v)]
  | (k', v') :: rest =>
    if k' = k then (k, v) :: rest else (k', v') :: alSet rest k v

/-- alRemove models Python `d.pop(k)`'s removal effect. -/
def alRemove {α : Type} (m : List (String × α)) (k : String) :
    List (String × α) :=
  match m with
  | [] => []
  | (k', v') :: rest =>
    if k' = k then alRemove rest k else (k', v') :: alRemove rest k

/-- jGet models Python `d.get(k)` when `d` is a decoded JSON value: a lookup
that only succeeds on objects. -/
def jGet (v : JVal) (k : String) : Option JVal :=
  match v with
  | JVal.obj fields => alGet fields k
  | _ => none

/-- pyGetOr models Python `d.get(k, None)` followed by an `is None` test:
a JSON `null` value behaves exactly like a missing key. -/
def pyGetOr (p : Payload) (k : String) : Option JVal :=
  match alGet p k with
  | some JVal.null => none
  | o => o

/-- pyGetStr extracts a string-valued field, the shape the correlator's
`transId`, `resource` and `from` fields have on the wire. -/
def pyGetStr (p : Payload) (k : String) : Option String :=
  match alGet p k with
  | some (JVal.str s) => some s
  | _ => none

/-- truthyStr models Python truthiness of an optional string (`if tid:`,
`if resource:`, `if device_id:`): `None` and the empty string are falsy. -/
def truthyStr (o : Option String) : Option String :=
  match o with
  | some s => if s = "" then none else some s
  | none => none

/-- pyTruthy models Python truthiness of a decoded JSON value
(`if body["success"]:`). -/
def pyTruthy : JVal → Bool
  | JVal.null => false
  | JVal.bool b => b
  | JVal.num n => n != 0
  | JVal.str s => s != ""
  | JVal.arr xs => !xs.isEmpty
  | JVal.obj fs => !fs.isEmpty

/-- The pending-transaction map `self._requests`: key registered with value
`none` until an event resolves it with the captured payload. -/
abbrev ReqMap := List (String × Option Payload)

/-- startTransaction embeds `_start_transaction`'s registration step:
`self._requests[tid] = None`. -/
def startTransaction (m : ReqMap) (tid : String) : ReqMap :=
  alSet m tid none

/-- waitForTransaction embeds the body of `_wait_for_transaction` at the point
the wait finishes (resolution, timeout, or concurrent discard of the map):
`response = self._requests.pop(tid)` with a `KeyError` producing `None`.
The first component is the returned response, the second the resulting map. -/
def waitForTransaction (m : ReqMap) (tid : String) :
    Option Payload × ReqMap :=
  match alGet m tid with
  | none => (none, m)
  | some v => (v, alRemove m tid)

/-- tidStep embeds the transaction-identifier rule of
`_event_handle_response`: `if tid and tid in self._requests:
self._requests[tid] = response`. -/
def tidStep (m : ReqMap) (p : Payload) : ReqMap :=
  match truthyStr (pyGetStr p "transId") with
  | some t => if (alGet m t).isSome then alSet m t (some p) else m
  | none => m

/-- boundResource embeds `resource = "{}:{}".format(resource, device_id)`,
performed only when the payload carries a truthy `from` field. -/
def boundResource (p : Payload) (r : String) : String :=
  match truthyStr (pyGetStr p "from") with
  | some d => r ++ ":" ++ d
  | none => r

/-- resourceStep embeds the resource rules of `_event_handle_response`:
an exact match of the payload's resource against a registered key, and
otherwise a regex scan (`re.match(request, resource)`) that resolves every
matching registered key.  The regex engine is external; it enters as the
abstract relation `rmatch`. -/
def resourceStep (rmatch : String → String → Bool) (m : ReqMap)
    (p : Payload) : ReqMap :=
  match truthyStr (pyGetStr p "resource") with
  | none => m
  | some r =>
    if (alGet m r).isSome then alSet m r (some p)
    else
      let key := boundResource p r
      m.map (fun e => if rmatch e.1 key then (e.1, some p) else e)

/-- handleTransactions embeds the correlator part of
`_event_handle_response` (lines 446-479): the transaction-id rule followed by
the resource rules, run sequentially on the shared map. -/
def handleTransactions (rmatch : String → String → Bool) (m : ReqMap)
    (p : Payload) : ReqMap :=
  resourceStep rmatch (tidStep m p) p

/-- resolvesKeyB states, for comparison with the matching policy the spec
describes, when a registered key `k` is resolved by payload `p`: its own
transaction id matched, or the payload's resource matched it exactly, or the
exact-resource match failed and `k` regex-matched the (possibly device-bound)
resource. -/
def resolvesKeyB (rmatch : String → String → Bool) (m : ReqMap)
    (p : Payload) (k : String) : Bool :=
  decide (truthyStr (pyGetStr p "transId") = some k)
  || (match truthyStr (pyGetStr p "resource") with
      | none => false
      | some r =>
        decide (r = k)
        || ((alGet m r).isNone && rmatch k (boundResource p r)))

-- ### Callback registry (`add_listener`, `add_any_listener`, `del_listener`)

/-- CbMap is `self._callbacks`: routing key to the ordered list of subscriber
callbacks. -/
abbrev CbMap (CB : Type) := List (String × List CB)

/-- registerCb embeds one half of `add_listener`:
`if key not in self._callbacks: self._callbacks[key] = []` followed by
`self._callbacks[key].append(callback)`. -/
def registerCb {CB : Type} (m : CbMap CB) (k : String) (cb : CB) : CbMap CB :=
  let m' := if (alGet m k).isNone then alSet m k [] else m
  alSet m' k ((alGet m' k).getD [] ++ [cb])

/-- addListener embeds `add_listener`: the callback is appended under the
device's `device_id` and then under its `unique_id`. -/
def addListener {CB : Type} (m : CbMap CB) (deviceId uniqueId : String)
    (cb : CB) : CbMap CB :=
  registerCb (registerCb m deviceId cb) uniqueId cb

/-- addAnyListener embeds `add_any_listener`: registration under the wildcard
key `"all"`. -/
def addAnyListener {CB : Type} (m : CbMap CB) (cb : CB) : CbMap CB :=
  registerCb m "all" cb

/-- delListener embeds `del_listener`, whose body is `pass`. -/
def delListener {CB Dev : Type} (m : CbMap CB) (_device : Dev) (_cb : CB) :
    CbMap CB :=
  m

/-- gatherCallbacks embeds the delivery step of `_event_dispatcher`
(lines 416-425): the callbacks registered under a truthy device id that is a
key of the registry, followed by the wildcard `"all"` callbacks. -/
def gatherCallbacks {CB : Type} (m : CbMap CB) (deviceId : Option JVal) :
    List CB :=
  (match deviceId with
   | some (JVal.str s) => if s = "" then [] else (alGet m s).getD []
   | _ => []) ++ (alGet m "all").getD []

-- ### Python string primitives used by the dispatcher

/-- startsList decides whether the first character list is an initial segment
of the second; it backs the embedding of Python `str.startswith`. -/
def startsList : List Char → List Char → Bool
  | [], _ => true
  | _ :: _, [] => false
  | p :: ps, q :: qs => p = q && startsList ps qs

/-- pyStartsWith embeds Python `s.startswith(p)`. -/
def pyStartsWith (p s : String) : Bool :=
  startsList p.toList s.toList

/-- pySplitChars embeds Python `str.split(sep)` (with a one-character
separator) on the character list of the string: `"".split` is `[""]`, and
separators at either end produce empty segments. -/
def pySplitChars (sep : Char) : List Char → List (List Char)
  | [] => [[]]
  | c :: cs =>
    let rest := pySplitChars sep cs
    if c = sep then [] :: rest
    else
      match rest with
      | [] => [[c]]
      | p :: ps => (c :: p) :: ps

/-- pySplitStr embeds Python `s.split(sep)`. -/
def pySplitStr (sep : Char) (s : String) : List String :=
  (pySplitChars sep s.toList).map String.mk

-- ### Event classifier and router (`_event_dispatcher`, lines 309-413)

/-- RTriple is one routing decision of the dispatcher: the originating device
id as it appears on the wire (absent when the packet carries none), the
resource, and the sub-payload delivered to subscribers. -/
abbrev RTriple := Option JVal × String × JVal

/-- propDeviceId embeds the per-property device id of the base-station
response case: `prop.get("serialNumber", None)` falling back to
`response.get("from", None)` when the serial number is missing or null. -/
def propDeviceId (response : Payload) (prop : JVal) : Option JVal :=
  match jGet prop "serialNumber" with
  | some JVal.null => pyGetOr response "from"
  | some v => some v
  | none => pyGetOr response "from"

/-- chainedDeviceId embeds the last-ditch id lookup of the dispatcher:
`response.get("deviceId", response.get("uniqueId",
response.get("locationId", None)))`.  Key presence decides each step, so a
present-but-null `deviceId` stops the chain with a null value. -/
def chainedDeviceId (response : Payload) : Option JVal :=
  match alGet response "deviceId" with
  | some v => some v
  | none =>
    match alGet response "uniqueId" with
    | some v => some v
    | none => alGet response "locationId"

/-- eventDispatcher embeds the routing core of `_event_dispatcher`
(lines 309-413): the ordered packet-shape policy producing zero or more
routing triples.  `resourceTypes` is the `_resource_types` list
(`DEFAULT_RESOURCES` from the repository's constants module). -/
def eventDispatcher (resourceTypes : List String) (response : Payload) :
    List RTriple :=
  let resource :=
    match alGet response "resource" with
    | some (JVal.str s) => s
    | _ => ""
  if pyStartsWith "subscriptions/" resource then []
  else if resource = "activeAutomations" then
    (response.filter (fun e => ¬ e.1 = "resource")).map
      (fun e => (some (JVal.str e.1), resource, e.2))
  else if (alGet response "states").isSome then
    match pyGetOr response "from" with
    | some d => [(some d, "states", (alGet response "states").getD JVal.null)]
    | none => []
  else if ¬ (resourceTypes.filter
      (fun x => pyStartsWith (x ++ "/") resource)) = [] then
    [(some (JVal.str ((pySplitStr '/' resource).getD 1 "")), resource,
      JVal.obj response)]
  else if resource = "devices" then
    match alGet response "devices" with
    | some (JVal.obj devs) =>
      devs.map (fun e => (some (JVal.str e.1), resource, e.2))
    | _ => []
  else if resourceTypes.contains resource then
    match (alGet response "properties").getD (JVal.arr []) with
    | JVal.arr props =>
      props.map (fun prop => (propDeviceId response prop, resource, prop))
    | _ => [(pyGetOr response "from", resource, JVal.obj response)]
  else if pyStartsWith "audioPlayback" resource then
    let deviceId := pyGetOr response "from"
    let properties :=
      if resource = "audioPlayback/status" then
        some (JVal.obj [("status", (alGet response "properties").getD
          JVal.null)])
      else pyGetOr response "properties"
    match deviceId, properties with
    | some d, some props => [(some d, resource, props)]
    | _, _ => []
  else
    match chainedDeviceId response with
    | some JVal.null => []
    | some v => [(some v, resource, JVal.obj response)]
    | none => []

-- ### Session store (`_load_session`, `_save_session`, lines 104-164)

/-- SessionRecord is one account's entry of the persisted session container:
the seven fields `_save_session` writes.  The two trailing fields are the
ones `_load_session` only reads when present. -/
structure SessionRecord where
  user_id : Option String
  web_id : Option String
  sub_id : Option String
  token : Option String
  expires_in : Int
  browser_auth_code : Option String
  device_id : Option String

/-- SessionState is the in-memory identity the loader populates
(`_user_id`, `_web_id`, `_sub_id`, `_token`, `_expires_in`,
`_browser_auth_code`, `_user_device_id`). -/
structure SessionState where
  user_id : Option String
  web_id : Option String
  sub_id : Option String
  token : Option String
  expires_in : Int
  browser_auth_code : Option String
  user_device_id : Option String

/-- SessionFile is the decoded on-disk container: the versioned (`"2"`)
multi-account shape, or the legacy unversioned single-account shape that
`_load_session` must migrate. -/
inductive SessionFile where
  | v2 (accounts : List (String × SessionRecord))
  | v1 (record : SessionRecord)

/-- emptySessionState is the reset the loader starts with: every identity
field `None` and `_expires_in = 0`. -/
def emptySessionState : SessionState :=
  ⟨none, none, none, none, 0, none, none⟩

/-- stateOfRecord embeds the field assignments of `_load_session` once an
account's record was found. -/
def stateOfRecord (r : SessionRecord) : SessionState :=
  { user_id := r.user_id
    web_id := r.web_id
    sub_id := r.sub_id
    token := r.token
    expires_in := r.expires_in
    browser_auth_code := r.browser_auth_code
    user_device_id := r.device_id }

/-- recordOfState embeds the record `_save_session` writes under the
account's key. -/
def recordOfState (s : SessionState) : SessionRecord :=
  { user_id := s.user_id
    web_id := s.web_id
    sub_id := s.sub_id
    token := s.token
    expires_in := s.expires_in
    browser_auth_code := s.browser_auth_code
    device_id := s.user_device_id }

/-- loadSession embeds `_load_session` with session saving enabled (the
`cfg.save_session` guard is the claim's premise).  `none` is an unreadable
or corrupt file, which resets the container to an empty version-"2" one;
a legacy file is migrated to the version-"2" shape keyed under the
configured account.  The result is the populated state and the in-memory
container `ArloBackEnd._session_info`. -/
def loadSession (file : Option SessionFile) (username : String) :
    SessionState × SessionFile :=
  match file with
  | none => (emptySessionState, SessionFile.v2 [])
  | some (SessionFile.v2 accounts) =>
    (match alGet accounts username with
     | some r => stateOfRecord r
     | none => emptySessionState,
     SessionFile.v2 accounts)
  | some (SessionFile.v1 r) =>
    (stateOfRecord r, SessionFile.v2 [(username, r)])

/-- saveSession embeds `_save_session` with session saving enabled:
`ArloBackEnd._session_info[username] = {...}` followed by dumping the whole
container.  `_load_session` has always left the container in the version-"2"
shape by the time a save happens, so the container is its account list. -/
def saveSession (accounts : List (String × SessionRecord))
    (username : String) (s : SessionState) :
    List (String × SessionRecord) :=
  alSet accounts username (recordOfState s)

-- ### Request executor response normalization (`_request_tuple`)

/-- ReqOutcome abstracts the transport outcome `_request_tuple` reacts to:
an exception while sending, a body that fails to parse, or a response with
an HTTP status and a decoded body. -/
inductive ReqOutcome where
  | sendExn
  | parseExn (status : Int)
  | ok (status : Int) (body : JVal)

/-- metaEnvelopeWarns embeds the guard
`if body["meta"]["error"] != 9204: warning(...)` of the meta-envelope error
branch. -/
def metaEnvelopeWarns : JVal → Bool
  | JVal.num n => n != 9204
  | _ => true

/-- requestTuple embeds the normalization of `_request_tuple`
(lines 245-287) for a non-streaming request: the `(status, body)` pair the
caller receives plus whether a warning was emitted.  `none` is an uncaught
exception (a `KeyError` or `int()` failure on a malformed envelope). -/
def requestTuple (raw : Bool) (o : ReqOutcome) :
    Option ((Int × Option JVal) × Bool) :=
  match o with
  | ReqOutcome.sendExn => some ((500, none), true)
  | ReqOutcome.parseExn _ => some ((500, none), true)
  | ReqOutcome.ok status body =>
    if status ≠ 200 then some ((status, none), false)
    else if raw then some ((200, some body), false)
    else
      match jGet body "meta" with
      | some meta =>
        (match jGet meta "code" with
         | some (JVal.num n) =>
           if n = 200 then
             match jGet body "data" with
             | some d => some ((200, some d), false)
             | none => none
           else
             (match jGet meta "error", jGet meta "message" with
              | some e, some msg =>
                some ((n, some msg), metaEnvelopeWarns e)
              | _, _ => none)
         | _ => none)
      | none =>
        match jGet body "success" with
        | some s =>
          if pyTruthy s then
            match jGet body "data" with
            | some d => some ((200, some d), false)
            | none => some ((200, some (JVal.obj [])), false)
          else some ((500, none), true)
        | none => some ((500, none), false)

-- ### Credential submission retry loop of `_auth` (lines 815-846)

/-- AuthResult mirrors the `AuthResult` enum of the backend. -/
inductive AuthResult where
  | CAN_RETRY
  | SUCCESS
  | FAILED
deriving DecidableEq

/-- authSubmitGo embeds the `while attempt < 3` loop of `_auth`: each
iteration submits the credentials (`resp n` is the normalized result of
attempt `n`), breaks on status 200 or 401, and otherwise sleeps 3 seconds.
The result is `(attempts, sleeps, (code, body))`.  `fuel` is the structural
bound; the loop condition keeps `attempt + fuel = 3` on every reachable
call, so fuel 3 is exact. -/
def authSubmitGo (resp : Nat → Int × Option JVal) :
    Nat → Nat → Nat → Int × Option JVal → Nat × Nat × (Int × Option JVal)
  | 0, attempt, sleeps, last => (attempt, sleeps, last)
  | fuel + 1, attempt, sleeps, last =>
    if attempt < 3 then
      let cb := resp (attempt + 1)
      if cb.1 = 200 ∨ cb.1 = 401 then (attempt + 1, sleeps, cb)
      else authSubmitGo resp fuel (attempt + 1) (sleeps + 1) cb
    else (attempt, sleeps, last)

/-- authSubmit runs the credential-submission loop from its initial state
(`attempt = 0`, `code = 0`, `body = None`). -/
def authSubmit (resp : Nat → Int × Option JVal) :
    Nat × Nat × (Int × Option JVal) :=
  authSubmitGo resp 3 0 0 (0, none)

/-- authSubmitOutcome embeds the classification directly after the loop:
`body is None` is the retryable cloudflare outcome, any other non-200 code
is fatal, and a 200 with a body proceeds with the login. -/
def authSubmitOutcome (resp : Nat → Int × Option JVal) : AuthResult :=
  let r := authSubmit resp
  if r.2.2.2.isNone then AuthResult.CAN_RETRY
  else if r.2.2.1 ≠ 200 then AuthResult.FAILED
  else AuthResult.SUCCESS

-- ### Event supervisor (`_event_main` cleanup, `start_monitoring`)

/-- SupervisorState carries the cross-thread state the supervisor's loop-exit
cleanup touches.  `eventConnected` is `_event_connected`, the flag
`start_monitoring` waits on; `clientConnected` is the `_client_connected`
attribute assigned in the cleanup and read nowhere else. -/
structure SupervisorState where
  eventConnected : Bool
  clientConnected : Bool
  requests : ReqMap
  loggedIn : Bool
  eventClientActive : Bool

/-- eventLoopExitCleanup embeds the block `_event_main` runs every time the
inner transport loop exits (lines 508-516): it assigns
`_client_connected = False`, empties `_requests`, wakes all waiters, drops
the transport client and clears `_logged_in` so the outer loop re-enters the
re-login wait. -/
def eventLoopExitCleanup (s : SupervisorState) : SupervisorState :=
  { s with
    clientConnected := false
    requests := []
    eventClientActive := false
    loggedIn := false }

/-- startWaitFrom embeds the connection wait of `start_monitoring`:
`while not self._event_connected and count < 30: self._lock.wait(1);
count += 1`.  `connected n` is the value of `_event_connected` observed at
the test made with `count = n`; the fuel equals `30 - count` on every
reachable call, so the structural bound is exact. -/
def startWaitFrom (connected : Nat → Bool) : Nat → Nat → Nat
  | 0, count => count
  | fuel + 1, count =>
    if connected count then count
    else startWaitFrom connected fuel (count + 1)

/-- startMonitoring embeds the blocking part of `start_monitoring` and its
result: the number of one-second waits performed, and the returned boolean,
which the code produces as the literal `True`. -/
def startMonitoring (connected : Nat → Bool) : Nat × Bool :=
  (startWaitFrom connected 30 0, true)

-- ## Dictionary lemmas

theorem alGet_alSet_self {α : Type} (m : List (String × α)) (k : String)
    (v : α) : alGet (alSet m k v) k = some v := by
  induction m with
  | nil => simp [alGet, alSet]
  | cons e rest ih =>
    obtain ⟨k', v'⟩ := e
    by_cases h : k' = k
    · simp [alSet, h, alGet]
    · simp [alSet, h, alGet, ih]

theorem alGet_alSet_ne {α : Type} (m : List (String × α)) (k k' : String)
    (v : α) (h : k' ≠ k) : alGet (alSet m k v) k' = alGet m k' := by
  induction m with
  | nil => simp [alGet, alSet, Ne.symm h]
  | cons e rest ih =>
    obtain ⟨k₀, v₀⟩ := e
    by_cases h₀ : k₀ = k
    · subst h₀
      simp [alSet, alGet, Ne.symm h]
    · by_cases h₁ : k₀ = k'
      · simp [alSet, h₀, alGet, h₁, h]
      · simp [alSet, h₀, alGet, h₁, h, ih]

theorem alGet_alRemove {α : Type} (m : List (String × α)) (k : String) :
    alGet (alRemove m k) k = none := by
  induction m with
  | nil => rfl
  | cons e rest ih =>
    obtain ⟨k', v'⟩ := e
    by_cases h : k' = k
    · simpa [alRemove, h] using ih
    · simp [alRemove, h, alGet, ih]

-- ## C7: transaction wait returns absent on no resolution and never leaks

/-- C7: `_wait_for_transaction` returns exactly the captured value of the
registered entry at the moment the wait ends — in particular `none` when no
matching payload resolved the key within the timeout (value still `None`) or
when a loop restart discarded the whole map (`KeyError`) — and in every case
the key is absent from the pending-transaction map when it returns; a key
freshly registered by `_start_transaction` that is never resolved yields an
absent result. -/
theorem waitForTransaction_no_leak (m : ReqMap) (tid : String) :
    (waitForTransaction m tid).1 = (alGet m tid).join
    ∧ alGet (waitForTransaction m tid).2 tid = none
    ∧ (waitForTransaction (startTransaction m tid) tid).1 = none := by
  refine ⟨?_, ?_, ?_⟩
  · cases h : alGet m tid <;> simp [waitForTransaction, h]
  · cases h : alGet m tid <;> simp [waitForTransaction, h, alGet_alRemove]
  · simp [waitForTransaction, startTransaction, alGet_alSet_self]

-- ## C9: del_listener is a no-op

/-- C9: `del_listener` leaves the backend state exactly unchanged — the
callback registry is untouched, so the callbacks gathered for any routed
event (any device id, including the wildcard entry) are the same before and
after the call. -/
theorem delListener_noop {CB Dev : Type} (m : CbMap CB) (device : Dev)
    (cb : CB) :
    delListener m device cb = m
    ∧ ∀ did, gatherCallbacks (delListener m device cb) did
        = gatherCallbacks m did :=
  ⟨rfl, fun _ => rfl⟩

-- ## C5: session persistence round-trips and migrates legacy files

/-- C5: saving a session for an account and loading for the same account
restores every identity field exactly (the in-memory state equals the state
before the save, field for field), and loading a legacy version-1
(single-account, unversioned) file populates the same fields from it and
migrates the container to the version-"2" shape keyed under the configured
account with the record preserved. -/
theorem session_roundtrip_and_migration :
    (∀ (accounts : List (String × SessionRecord)) (username : String)
       (st : SessionState),
      loadSession (some (SessionFile.v2 (saveSession accounts username st)))
          username
        = (st, SessionFile.v2 (saveSession accounts username st)))
    ∧ (∀ (username : String) (r : SessionRecord),
      loadSession (some (SessionFile.v1 r)) username
        = (stateOfRecord r, SessionFile.v2 [(username, r)])
      ∧ stateOfRecord r
        = ⟨r.user_id, r.web_id, r.sub_id, r.token, r.expires_in,
           r.browser_auth_code, r.device_id⟩) := by
  constructor
  · intro accounts username st
    simp [loadSession, saveSession, alGet_alSet_self, stateOfRecord,
      recordOfState]
  · intro username r
    exact ⟨rfl, rfl⟩

-- ## C4: loop-exit cleanup fails to clear the connection-ready flag

/-- C4 (code bug): when the inner transport loop exits, the cleanup block of
`_event_main` does empty the pending-transaction map and does clear
`_logged_in` (sending the outer loop back to re-authentication), but it does
NOT clear the connection-ready state: it assigns `False` to
`_client_connected`, an attribute read nowhere in the class, while
`_event_connected` — the flag `start_monitoring` waits on — keeps its value.
Here, from a state that is connected with one pending transaction, the
cleanup leaves `eventConnected` at `true`. -/
theorem eventLoopExitCleanup_leaves_connected :
    eventLoopExitCleanup ⟨true, true, [("tx1", none)], true, true⟩
      = ⟨true, false, [], false, false⟩ :=
  rfl

-- ## C10: add_listener registers the callback under both device identifiers

theorem registerCb_self {CB : Type} (m : CbMap CB) (k : String) (cb : CB) :
    alGet (registerCb m k cb) k = some ((alGet m k).getD [] ++ [cb]) := by
  unfold registerCb
  cases h : alGet m k with
  | none => simp [h, alGet_alSet_self]
  | some l => simp [h, alGet_alSet_self]

theorem registerCb_other {CB : Type} (m : CbMap CB) (k k' : String) (cb : CB)
    (h : k' ≠ k) : alGet (registerCb m k cb) k' = alGet m k' := by
  unfold registerCb
  cases hk : alGet m k with
  | none => simp [hk, alGet_alSet_ne _ _ _ _ h]
  | some l => simp [hk, alGet_alSet_ne _ _ _ _ h]

/-- C10: `add_listener(device, callback)` appends the callback at the end of
the registry lists under both the device's `device_id` key and its
`unique_id` key, creating either list when absent; every other registry key
is untouched; and afterwards the callback is among those gathered for an
event routed under either identifier. -/
theorem addListener_registers_both {CB : Type} (m : CbMap CB)
    (d u : String) (cb : CB) (hdu : d ≠ u) (hd : d ≠ "") (hu : u ≠ "") :
    alGet (addListener m d u cb) d = some ((alGet m d).getD [] ++ [cb])
    ∧ alGet (addListener m d u cb) u = some ((alGet m u).getD [] ++ [cb])
    ∧ (∀ k, k ≠ d → k ≠ u → alGet (addListener m d u cb) k = alGet m k)
    ∧ cb ∈ gatherCallbacks (addListener m d u cb) (some (JVal.str d))
    ∧ cb ∈ gatherCallbacks (addListener m d u cb) (some (JVal.str u)) := by
  have hgd : alGet (addListener m d u cb) d
      = some ((alGet m d).getD [] ++ [cb]) := by
    unfold addListener
    rw [registerCb_other _ _ _ _ hdu, registerCb_self]
  have hgu : alGet (addListener m d u cb) u
      = some ((alGet m u).getD [] ++ [cb]) := by
    unfold addListener
    rw [registerCb_self, registerCb_other _ _ _ _ (Ne.symm hdu)]
  refine ⟨hgd, hgu, ?_, ?_, ?_⟩
  · intro k hkd hku
    unfold addListener
    rw [registerCb_other _ _ _ _ hku, registerCb_other _ _ _ _ hkd]
  · simp [gatherCallbacks, hd, hgd]
  · simp [gatherCallbacks, hu, hgu]

/-- C10 witness: a concrete registration on a registry that already has an
unrelated entry. -/
theorem addListener_registers_both_witness :
    alGet (addListener ([("x", [1])] : CbMap Nat) "d" "u" 7) "d"
      = some ((alGet ([("x", [1])] : CbMap Nat) "d").getD [] ++ [7])
    ∧ alGet (addListener ([("x", [1])] : CbMap Nat) "d" "u" 7) "u"
      = some ((alGet ([("x", [1])] : CbMap Nat) "u").getD [] ++ [7])
    ∧ (∀ k, k ≠ "d" → k ≠ "u" →
        alGet (addListener ([("x", [1])] : CbMap Nat) "d" "u" 7) k
          = alGet ([("x", [1])] : CbMap Nat) k)
    ∧ 7 ∈ gatherCallbacks (addListener ([("x", [1])] : CbMap Nat) "d" "u" 7)
        (some (JVal.str "d"))
    ∧ 7 ∈ gatherCallbacks (addListener ([("x", [1])] : CbMap Nat) "d" "u" 7)
        (some (JVal.str "u")) :=
  addListener_registers_both [("x", [1])] "d" "u" 7 (by decide) (by decide)
    (by decide)

-- ## C2: start() blocks for at most 30 waits but always returns true

theorem startWaitFrom_spec (c : Nat → Bool) :
    ∀ fuel count,
      count ≤ startWaitFrom c fuel count
      ∧ startWaitFrom c fuel count ≤ count + fuel
      ∧ (c (startWaitFrom c fuel count) = true
         ∨ startWaitFrom c fuel count = count + fuel)
      ∧ (∀ m, count ≤ m → m < startWaitFrom c fuel count → c m = false) := by
  intro fuel
  induction fuel with
  | zero =>
    intro count
    refine ⟨Nat.le_refl _, by simp [startWaitFrom], Or.inr rfl, ?_⟩
    intro m h1 h2
    simp [startWaitFrom] at h2
    omega
  | succ n ih =>
    intro count
    by_cases h : c count
    · have hrw : startWaitFrom c (n + 1) count = count := by
        simp [startWaitFrom, h]
      rw [hrw]
      exact ⟨Nat.le_refl _, by omega, Or.inl h, fun m h1 h2 => by omega⟩
    · obtain ⟨ih1, ih2, ih3, ih4⟩ := ih (count + 1)
      have hrw : startWaitFrom c (n + 1) count
          = startWaitFrom c n (count + 1) := by
        simp [startWaitFrom, h]
      refine ⟨?_, ?_, ?_, ?_⟩
      · rw [hrw]; omega
      · rw [hrw]; omega
      · rw [hrw]
        rcases ih3 with h3 | h3
        · exact Or.inl h3
        · exact Or.inr (by omega)
      · intro m h1 h2
        rw [hrw] at h2
        rcases Nat.eq_or_lt_of_le h1 with he | hl
        · rw [← he]
          simpa using h
        · exact ih4 m hl h2

/-- C2 (amended): `start_monitoring` blocks until the first connection is
confirmed or 30 one-second waits elapse — the wait count is at most 30, the
loop stops either on an observed connection or at the bound, and every
earlier observation saw the flag down — but its boolean return value is the
literal `True` regardless of whether the connection came up. -/
theorem startMonitoring_amended (c : Nat → Bool) :
    (startMonitoring c).2 = true
    ∧ (startMonitoring c).1 ≤ 30
    ∧ (c (startMonitoring c).1 = true ∨ (startMonitoring c).1 = 30)
    ∧ (∀ m, m < (startMonitoring c).1 → c m = false) := by
  obtain ⟨h1, h2, h3, h4⟩ := startWaitFrom_spec c 30 0
  exact ⟨rfl, by simpa using h2, by simpa using h3,
    fun m hm => h4 m (Nat.zero_le m) hm⟩

/-- C2 witness: a flag that comes up at the third observation; the wait
stops there and the call returns `True`. -/
theorem startMonitoring_amended_witness :
    (startMonitoring (fun n => n == 2)).2 = true
    ∧ (startMonitoring (fun n => n == 2)).1 ≤ 30
    ∧ ((fun n => n == 2) (startMonitoring (fun n => n == 2)).1 = true
       ∨ (startMonitoring (fun n => n == 2)).1 = 30)
    ∧ (∀ m, m < (startMonitoring (fun n => n == 2)).1 →
        (fun n => n == 2) m = false) :=
  startMonitoring_amended (fun n => n == 2)

/-- C2 counterexample: with the connection flag never observed up,
`start_monitoring` performs its full 30 bounded waits and still returns
`True`, so the return value does not equal whether the connection was
achieved. -/
theorem startMonitoring_counterexample :
    startMonitoring (fun _ => false) = (30, true) :=
  rfl

-- ## C3: credential-submission retries

theorem authSubmitGo_step (resp : Nat → Int × Option JVal)
    (fuel attempt sleeps : Nat) (last : Int × Option JVal)
    (h : attempt < 3) :
    authSubmitGo resp (fuel + 1) attempt sleeps last =
      if (resp (attempt + 1)).1 = 200 ∨ (resp (attempt + 1)).1 = 401
      then (attempt + 1, sleeps, resp (attempt + 1))
      else authSubmitGo resp fuel (attempt + 1) (sleeps + 1)
        (resp (attempt + 1)) := by
  simp [authSubmitGo, h]

theorem authSubmitGo_attempts_le (resp : Nat → Int × Option JVal) :
    ∀ fuel attempt sleeps last, attempt + fuel ≤ 3 →
      (authSubmitGo resp fuel attempt sleeps last).1 ≤ 3 := by
  intro fuel
  induction fuel with
  | zero =>
    intro attempt sleeps last h
    simpa [authSubmitGo] using by omega
  | succ n ih =>
    intro attempt sleeps last h
    by_cases ha : attempt < 3
    · rw [authSubmitGo_step resp n attempt sleeps last ha]
      by_cases hb : (resp (attempt + 1)).1 = 200
          ∨ (resp (attempt + 1)).1 = 401
      · simp [hb]; omega
      · simp [hb]
        exact ih _ _ _ (by omega)
    · simp [authSubmitGo, ha]
      omega

/-- C3 (amended): the credential-submission step of `_auth` performs at most
3 attempts, retrying (with a 3-second backoff) only while the normalized
status is neither 200 nor 401.  With two non-200/non-401 attempts followed
by a 200-with-body, it succeeds by attempt 3 after exactly 2 backoff
delays.  When the first attempt comes back with status 401, no further
attempt is made — but the outcome depends on the body `_request_tuple`
normalized: an HTTP-level 401 yields `(401, None)` (last conjunct), and the
absent body makes `_auth` return the Retryable outcome `CAN_RETRY`, not the
Fatal one; the Fatal outcome `FAILED` arises only when the 401 arrives with
a body, i.e. as a meta-envelope code inside an HTTP-200 response. -/
theorem authSubmit_amended :
    (∀ resp : Nat → Int × Option JVal, (authSubmit resp).1 ≤ 3)
    ∧ (∀ resp : Nat → Int × Option JVal,
        ¬ ((resp 1).1 = 200 ∨ (resp 1).1 = 401) →
        ¬ ((resp 2).1 = 200 ∨ (resp 2).1 = 401) →
        (resp 3).1 = 200 → (resp 3).2.isSome = true →
        authSubmit resp = (3, 2, resp 3)
        ∧ authSubmitOutcome resp = AuthResult.SUCCESS)
    ∧ (∀ resp : Nat → Int × Option JVal, resp 1 = (401, none) →
        authSubmit resp = (1, 0, (401, none))
        ∧ authSubmitOutcome resp = AuthResult.CAN_RETRY)
    ∧ (∀ (resp : Nat → Int × Option JVal) (msg : JVal),
        resp 1 = (401, some msg) →
        authSubmit resp = (1, 0, (401, some msg))
        ∧ authSubmitOutcome resp = AuthResult.FAILED)
    ∧ (∀ b : JVal, requestTuple false (ReqOutcome.ok 401 b)
        = some ((401, none), false)) := by
  refine ⟨?_, ?_, ?_, ?_, ?_⟩
  · intro resp
    exact authSubmitGo_attempts_le resp 3 0 0 (0, none) (by omega)
  · intro resp h1 h2 h3 hb
    have hbr : (resp 3).1 = 200 ∨ (resp 3).1 = 401 := Or.inl h3
    have hs : authSubmit resp = (3, 2, resp 3) := by
      show authSubmitGo resp (2 + 1) 0 0 (0, none) = (3, 2, resp 3)
      rw [authSubmitGo_step resp 2 0 0 (0, none) (by omega)]
      simp only [h1, if_false]
      show authSubmitGo resp (1 + 1) 1 1 (resp 1) = (3, 2, resp 3)
      rw [authSubmitGo_step resp 1 1 1 (resp 1) (by omega)]
      simp only [h2, if_false]
      show authSubmitGo resp (0 + 1) 2 2 (resp 2) = (3, 2, resp 3)
      rw [authSubmitGo_step resp 0 2 2 (resp 2) (by omega)]
      simp [hbr]
    refine ⟨hs, ?_⟩
    obtain ⟨bv, hbv⟩ := Option.isSome_iff_exists.mp hb
    simp [authSubmitOutcome, hs, hbv, h3]
  · intro resp h1
    have hs : authSubmit resp = (1, 0, (401, none)) := by
      show authSubmitGo resp (2 + 1) 0 0 (0, none) = (1, 0, (401, none))
      rw [authSubmitGo_step resp 2 0 0 (0, none) (by omega)]
      simp [h1]
    exact ⟨hs, by simp [authSubmitOutcome, hs]⟩
  · intro resp msg h1
    have hs : authSubmit resp = (1, 0, (401, some msg)) := by
      show authSubmitGo resp (2 + 1) 0 0 (0, none) = (1, 0, (401, some msg))
      rw [authSubmitGo_step resp 2 0 0 (0, none) (by omega)]
      simp [h1]
    refine ⟨hs, ?_⟩
    simp [authSubmitOutcome, hs]
  · intro b
    simp [requestTuple]

/-- C3 witness: the success-by-attempt-3 scenario (two HTTP 500s then an
HTTP 200 with a body) and the 401-on-first-attempt scenario, at concrete
response sequences. -/
theorem authSubmit_amended_witness :
    (authSubmit (fun n => if n < 3 then (500, none)
        else (200, some (JVal.obj []))) = (3, 2, (200, some (JVal.obj [])))
      ∧ authSubmitOutcome (fun n => if n < 3 then (500, none)
        else (200, some (JVal.obj []))) = AuthResult.SUCCESS)
    ∧ (authSubmit (fun _ => (401, none)) = (1, 0, (401, none))
      ∧ authSubmitOutcome (fun _ => (401, none)) = AuthResult.CAN_RETRY) := by
  constructor
  · have h := authSubmit_amended.2.1
      (fun n => if n < 3 then (500, none) else (200, some (JVal.obj [])))
      (by decide) (by decide) (by decide) (by decide)
    simpa using h
  · exact authSubmit_amended.2.2.1 (fun _ => (401, none)) rfl

/-- C3 counterexample: an endpoint answering HTTP 401 (normalized body
`None`) on the first attempt stops the loop immediately, but the outcome is
the Retryable `CAN_RETRY`, not the Fatal `FAILED` the claim states. -/
theorem authSubmit_counterexample :
    authSubmitOutcome (fun _ => (401, none)) = AuthResult.CAN_RETRY
    ∧ authSubmitOutcome (fun _ => (401, none)) ≠ AuthResult.FAILED
    ∧ (authSubmit (fun _ => (401, none))).1 = 1 :=
  ⟨rfl, by decide, rfl⟩

-- ## C8: response normalization of the request executor

/-- C8 (amended): `_request_tuple`'s normalization behaves as follows.  A
meta-envelope with numeric code 200 yields `(200, data)`; a non-200 meta
code yields `(meta code, meta message)` with a warning exactly when the meta
error differs from the untrusted-session code 9204.  A success-envelope with
`success: true` yields `(200, data)`, or `(200, {})` when `data` is absent,
and `success: false` yields the generic failure `(500, None)` (with a
warning).  A transport exception or a body-parse failure yields the generic
failure `(500, None)`; but a non-200 HTTP status is propagated as-is —
`(status, None)` — rather than being mapped to the generic failure
status. -/
theorem requestTuple_amended :
    (requestTuple false ReqOutcome.sendExn = some ((500, none), true)
      ∧ ∀ s : Int, requestTuple false (ReqOutcome.parseExn s)
          = some ((500, none), true))
    ∧ (∀ (s : Int) (b : JVal), s ≠ 200 →
        requestTuple false (ReqOutcome.ok s b) = some ((s, none), false))
    ∧ (∀ (body meta d : JVal), jGet body "meta" = some meta →
        jGet meta "code" = some (JVal.num 200) →
        jGet body "data" = some d →
        requestTuple false (ReqOutcome.ok 200 body)
          = some ((200, some d), false))
    ∧ (∀ (body meta e msg : JVal) (n : Int), jGet body "meta" = some meta →
        jGet meta "code" = some (JVal.num n) → n ≠ 200 →
        jGet meta "error" = some e → jGet meta "message" = some msg →
        requestTuple false (ReqOutcome.ok 200 body)
          = some ((n, some msg), metaEnvelopeWarns e)
        ∧ (metaEnvelopeWarns e = false ↔ e = JVal.num 9204))
    ∧ (∀ (body d : JVal), jGet body "meta" = none →
        jGet body "success" = some (JVal.bool true) →
        jGet body "data" = some d →
        requestTuple false (ReqOutcome.ok 200 body)
          = some ((200, some d), false))
    ∧ (∀ body : JVal, jGet body "meta" = none →
        jGet body "success" = some (JVal.bool true) →
        jGet body "data" = none →
        requestTuple false (ReqOutcome.ok 200 body)
          = some ((200, some (JVal.obj [])), false))
    ∧ (∀ body : JVal, jGet body "meta" = none →
        jGet body "success" = some (JVal.bool false) →
        requestTuple false (ReqOutcome.ok 200 body)
          = some ((500, none), true)) := by
  refine ⟨⟨rfl, fun s => rfl⟩, ?_, ?_, ?_, ?_, ?_, ?_⟩
  · intro s b hs
    simp [requestTuple, hs]
  · intro body meta d h1 h2 h3
    simp [requestTuple, h1, h2, h3]
  · intro body meta e msg n h1 h2 hn h3 h4
    constructor
    · simp [requestTuple, h1, h2, h3, h4, hn]
    · cases e <;> simp [metaEnvelopeWarns]
  · intro body d h1 h2 h3
    simp [requestTuple, h1, h2, h3, pyTruthy]
  · intro body h1 h2 h3
    simp [requestTuple, h1, h2, h3, pyTruthy]
  · intro body h1 h2
    simp [requestTuple, h1, h2, pyTruthy]

/-- C8 witness: concrete bodies exercising the meta-envelope error branch
(with the untrusted-session code, hence no warning) and the
success-envelope branch. -/
theorem requestTuple_amended_witness :
    requestTuple false (ReqOutcome.ok 200 (JVal.obj
        [("meta", JVal.obj [("code", JVal.num 401),
          ("error", JVal.num 9204), ("message", JVal.str "expired")])]))
      = some ((401, some (JVal.str "expired")),
          metaEnvelopeWarns (JVal.num 9204))
    ∧ (metaEnvelopeWarns (JVal.num 9204) = false
        ↔ JVal.num 9204 = JVal.num 9204) :=
  requestTuple_amended.2.2.2.1
    (JVal.obj [("meta", JVal.obj [("code", JVal.num 401),
      ("error", JVal.num 9204), ("message", JVal.str "expired")])])
    (JVal.obj [("code", JVal.num 401), ("error", JVal.num 9204),
      ("message", JVal.str "expired")])
    (JVal.num 9204) (JVal.str "expired") 401 rfl rfl (by decide) rfl rfl

/-- C8 counterexample: an HTTP 404 whose body parsed fine is returned as
`(404, None)` — the original status with an absent body — not the generic
failure status 500 the claim assigns to every non-200 HTTP status. -/
theorem requestTuple_counterexample :
    requestTuple false (ReqOutcome.ok 404 (JVal.obj []))
      = some ((404, none), false)
    ∧ (404 : Int) ≠ 500 :=
  ⟨rfl, by decide⟩

-- ## C1: transaction correlation on an incoming payload

theorem alGet_tidStep (m : ReqMap) (p : Payload) (k : String) :
    alGet (tidStep m p) k =
      if truthyStr (pyGetStr p "transId") = some k ∧ (alGet m k).isSome
      then some (some p) else alGet m k := by
  unfold tidStep
  cases ht : truthyStr (pyGetStr p "transId") with
  | none => simp [ht]
  | some t =>
    by_cases hr : (alGet m t).isSome
    · by_cases hkt : t = k
      · subst hkt
        simp [hr, alGet_alSet_self]
      · simp [hr, alGet_alSet_ne m t k (some p) (Ne.symm hkt), hkt]
    · by_cases hkt : t = k
      · subst hkt
        simp [hr]
      · simp [hr, hkt]

theorem tidStep_isSome (m : ReqMap) (p : Payload) (k : String) :
    (alGet (tidStep m p) k).isSome = (alGet m k).isSome := by
  rw [alGet_tidStep]
  by_cases h : truthyStr (pyGetStr p "transId") = some k
      ∧ (alGet m k).isSome
  · simp [h, h.2]
  · simp [h]

theorem alGet_cons_self {α : Type} (k : String) (v : α)
    (rest : List (String × α)) : alGet ((k, v) :: rest) k = some v := by
  simp [alGet]

theorem alGet_cons_ne {α : Type} (k k' : String) (v : α)
    (rest : List (String × α)) (h : ¬ k' = k) :
    alGet ((k', v) :: rest) k = alGet rest k := by
  simp [alGet, h]

theorem alGet_mapEntry {α β : Type} (g : String → α → β)
    (m : List (String × α)) (k : String) :
    alGet (m.map (fun e => (e.1, g e.1 e.2))) k = (alGet m k).map (g k) := by
  induction m with
  | nil => rfl
  | cons e rest ih =>
    obtain ⟨k', v'⟩ := e
    by_cases hk : k' = k
    · subst hk
      simp [alGet]
    · simp [alGet, hk, ih]

theorem alGet_mapResolve (m : ReqMap) (rm : String → String → Bool)
    (key : String) (p : Payload) (k : String) :
    alGet (m.map (fun e => if rm e.1 key then (e.1, some p) else e)) k
      = (alGet m k).map (fun v => if rm k key then some p else v) := by
  have hfun : (fun (e : String × Option Payload) =>
        if rm e.1 key then (e.1, some p) else e)
      = fun e => (e.1, if rm e.1 key then some p else e.2) := by
    funext e
    by_cases h : rm e.1 key <;> simp [h]
  rw [hfun]
  exact alGet_mapEntry (fun k v => if rm k key then some p else v) m k

theorem resourceStep_none (rmatch : String → String → Bool) (m : ReqMap)
    (p : Payload) (hres : truthyStr (pyGetStr p "resource") = none) :
    resourceStep rmatch m p = m := by
  unfold resourceStep
  rw [hres]

theorem resourceStep_some (rmatch : String → String → Bool) (m : ReqMap)
    (p : Payload) (r : String)
    (hres : truthyStr (pyGetStr p "resource") = some r) :
    resourceStep rmatch m p =
      if (alGet m r).isSome then alSet m r (some p)
      else m.map (fun e =>
        if rmatch e.1 (boundResource p r) then (e.1, some p) else e) := by
  unfold resourceStep
  rw [hres]

theorem resolvesKeyB_none (rmatch : String → String → Bool) (m : ReqMap)
    (p : Payload) (k : String)
    (hres : truthyStr (pyGetStr p "resource") = none) :
    resolvesKeyB rmatch m p k
      = decide (truthyStr (pyGetStr p "transId") = some k) := by
  unfold resolvesKeyB
  rw [hres]
  simp

theorem resolvesKeyB_some (rmatch : String → String → Bool) (m : ReqMap)
    (p : Payload) (k r : String)
    (hres : truthyStr (pyGetStr p "resource") = some r) :
    resolvesKeyB rmatch m p k
      = (decide (truthyStr (pyGetStr p "transId") = some k)
         || (decide (r = k)
             || ((alGet m r).isNone && rmatch k (boundResource p r)))) := by
  unfold resolvesKeyB
  rw [hres]

/-- C1 (amended): for every registered pending-transaction key `k`, one
incoming payload resolves `k` exactly when: the payload's transaction
identifier equals `k`, OR the payload's resource equals `k`, OR the resource
is not itself a registered key and `k` regex-matches the (possibly
device-bound) resource compound.  The transaction-identifier rule and the
resource rules fire independently — so two registered keys can be resolved
by one payload — and the regex stage, tried only when the exact-resource
lookup fails, resolves every matching registered key, not just the first;
an unresolved key keeps its pending value. -/
theorem handleTransactions_characterization
    (rmatch : String → String → Bool) (m : ReqMap) (p : Payload)
    (k : String) (v : Option Payload) (hk : alGet m k = some v) :
    alGet (handleTransactions rmatch m p) k
      = some (if resolvesKeyB rmatch m p k then some p else v) := by
  unfold handleTransactions
  cases hres : truthyStr (pyGetStr p "resource") with
  | none =>
    rw [resourceStep_none rmatch _ p hres,
      resolvesKeyB_none rmatch m p k hres, alGet_tidStep]
    by_cases ht : truthyStr (pyGetStr p "transId") = some k
    · simp [ht, hk]
    · simp [ht, hk]
  | some r =>
    rw [resourceStep_some rmatch _ p r hres,
      resolvesKeyB_some rmatch m p k r hres, tidStep_isSome]
    cases hmr : alGet m r with
    | some w =>
      by_cases hkr : k = r
      · subst hkr
        rw [if_pos (show (some w).isSome = true from rfl), alGet_alSet_self]
        simp
      · rw [if_pos (show (some w).isSome = true from rfl),
          alGet_alSet_ne _ _ _ _ hkr, alGet_tidStep]
        have hrk : ¬ (r = k) := fun h => hkr h.symm
        by_cases ht : truthyStr (pyGetStr p "transId") = some k
        · simp [ht, hk]
        · simp [ht, hk, hrk]
    | none =>
      have hrk : ¬ (r = k) := by
        intro h
        rw [h, hk] at hmr
        exact Option.noConfusion hmr
      rw [if_neg (show ¬ ((none : Option (Option Payload)).isSome = true)
        from by simp)]
      rw [alGet_mapResolve (tidStep m p) rmatch (boundResource p r) p k,
        alGet_tidStep]
      by_cases ht : truthyStr (pyGetStr p "transId") = some k
      · simp [ht, hk, hrk]
      · simp [ht, hk, hrk]

/-- C1 witness: a payload whose transaction id matches one registered key,
on a map where the resource regex-stage also runs. -/
theorem handleTransactions_characterization_witness :
    alGet (handleTransactions (fun pat s => pat == s)
        [("tid9", none), ("cameras/c1", none)]
        [("transId", JVal.str "tid9"), ("resource", JVal.str "cameras"),
         ("from", JVal.str "c1")]) "cameras/c1"
      = some (if resolvesKeyB (fun pat s => pat == s)
          [("tid9", none), ("cameras/c1", none)]
          [("transId", JVal.str "tid9"), ("resource", JVal.str "cameras"),
           ("from", JVal.str "c1")] "cameras/c1"
        then some [("transId", JVal.str "tid9"),
          ("resource", JVal.str "cameras"), ("from", JVal.str "c1")]
        else none) :=
  handleTransactions_characterization (fun pat s => pat == s)
    [("tid9", none), ("cameras/c1", none)]
    [("transId", JVal.str "tid9"), ("resource", JVal.str "cameras"),
     ("from", JVal.str "c1")] "cameras/c1" none rfl

/-- C1 counterexample: a payload carrying both a transaction identifier that
matches one registered key and a resource that exactly matches another
resolves BOTH keys — the rules are not an ordered chain resolving at most
one entry per payload. -/
theorem handleTransactions_counterexample :
    handleTransactions (fun _ _ => false) [("T", none), ("R", none)]
        [("transId", JVal.str "T"), ("resource", JVal.str "R")]
      = [("T", some [("transId", JVal.str "T"), ("resource", JVal.str "R")]),
         ("R", some [("transId", JVal.str "T"),
           ("resource", JVal.str "R")])] :=
  rfl

-- ## C6: routing of known-type "<type>/<id>" resources

theorem toList_append (a b : String) :
    (a ++ b).toList = a.toList ++ b.toList := by
  cases a
  cases b
  rfl

theorem stringMk_toList (s : String) : String.mk s.toList = s := by
  cases s
  rfl

theorem startsList_self_append (a b : List Char) :
    startsList a (a ++ b) = true := by
  induction a with
  | nil => rfl
  | cons x xs ih => simp [startsList, ih]

theorem pySplitChars_no_sep (sep : Char) (b : List Char) (h : sep ∉ b) :
    pySplitChars sep b = [b] := by
  induction b with
  | nil => rfl
  | cons x xs ih =>
    have hx : ¬ x = sep := fun e => h (by rw [e]; exact List.mem_cons_self _ _)
    have h' : sep ∉ xs := fun hm => h (List.mem_cons_of_mem _ hm)
    simp [pySplitChars, hx, ih h']

theorem pySplitChars_append (sep : Char) (a b : List Char) (h : sep ∉ a) :
    pySplitChars sep (a ++ sep :: b) = a :: pySplitChars sep b := by
  induction a with
  | nil => simp [pySplitChars]
  | cons x xs ih =>
    have hx : ¬ x = sep := fun e => h (by rw [e]; exact List.mem_cons_self _ _)
    have h' : sep ∉ xs := fun hm => h (List.mem_cons_of_mem _ hm)
    simp [pySplitChars, hx, ih h']

/-- C6 (amended): for every payload whose resource is `"<type>/<id>"` with
`<type>` a known resource type, PROVIDED the payload carries no top-level
`"states"` field (whose rule is tried earlier in the ordered policy and
would capture the packet) and the resource does not begin with
`"subscriptions/"` (the keep-alive rule, tried first), the dispatcher
produces exactly one routing triple whose device id is the `<id>` segment
of the resource path itself and whose sub-payload is the whole payload. -/
theorem eventDispatcher_known_type (types : List String) (t id : String)
    (p : Payload)
    (hres : alGet p "resource" = some (JVal.str (t ++ "/" ++ id)))
    (ht : t ∈ types)
    (hsub : pyStartsWith "subscriptions/" (t ++ "/" ++ id) = false)
    (hstates : alGet p "states" = none)
    (htslash : '/' ∉ t.toList)
    (hidslash : '/' ∉ id.toList) :
    eventDispatcher types p
      = [(some (JVal.str id), t ++ "/" ++ id, JVal.obj p)] := by
  have hlist : (t ++ "/" ++ id).toList = t.toList ++ '/' :: id.toList := by
    rw [toList_append, toList_append]
    simp
  have hact : ¬ ((t ++ "/" ++ id) = "activeAutomations") := by
    intro h
    have h2 : ('/' : Char) ∈ "activeAutomations".toList := by
      rw [← h, hlist]
      simp
    revert h2
    decide
  have hstart : pyStartsWith (t ++ "/") (t ++ "/" ++ id) = true := by
    unfold pyStartsWith
    rw [toList_append]
    exact startsList_self_append _ _
  have hfilter : (types.filter
      (fun x => pyStartsWith (x ++ "/") (t ++ "/" ++ id))) ≠ [] := by
    refine List.ne_nil_of_mem (a := t) ?_
    exact List.mem_filter.mpr ⟨ht, hstart⟩
  have hsplit : (pySplitStr '/' (t ++ "/" ++ id))[1]?.getD "" = id := by
    unfold pySplitStr
    rw [hlist, pySplitChars_append '/' t.toList id.toList htslash,
      pySplitChars_no_sep '/' id.toList hidslash]
    simp [stringMk_toList]
  simp [eventDispatcher, hres, hsub, hact, hstates, hfilter, hsplit]

/-- C6 witness: a `cameras/X1` packet with no `states` field routes as one
triple keyed by `X1` carrying the whole payload. -/
theorem eventDispatcher_known_type_witness :
    eventDispatcher ["cameras"] [("resource", JVal.str "cameras/X1")]
      = [(some (JVal.str "X1"), "cameras" ++ "/" ++ "X1",
          JVal.obj [("resource", JVal.str "cameras/X1")])] :=
  eventDispatcher_known_type ["cameras"] "cameras" "X1"
    [("resource", JVal.str "cameras/X1")] rfl (by decide) (by decide) rfl
    (by decide) (by decide)

/-- C6 counterexample: a payload whose resource is the known-type path
`cameras/X1` but which also carries a top-level `states` field is captured
by the earlier mode-update rule; lacking a `from` field it produces NO
triple at all — not the single `X1`-keyed triple the claim asserts for
every payload with a known-type resource. -/
theorem eventDispatcher_counterexample :
    eventDispatcher ["cameras"]
        [("resource", JVal.str "cameras/X1"), ("states", JVal.num 1)]
      = [] :=
  rfl
